import Mathlib

/-!
Verification of the miden-base note subsystem and transaction authenticator.

The development shallowly embeds the Rust sources:
  * `objects/src/notes/mod.rs`        — the `Note` aggregate and its (de)serialization,
  * `miden-lib/src/notes/mod.rs`      — the standardized note builders (P2ID, P2IDR, SWAP),
  * `miden-tx/src/host/tx_authenticator.rs` — `BasicAuthenticator` and the Falcon advice layout.

Components of the repository that are not part of the provided sources (the
note submodules `details.rs`, `recipient.rs`, `inputs.rs`, `metadata.rs`,
`note_tag.rs`, the `miden-lib` utils module, and the miden-crypto
collaborators) are modelled from the specification; each such definition is
marked with a doc comment starting with `Modelled from the spec:`.

Field elements are modelled as natural numbers; hash functions of the RPO
collaborator are modelled as fixed deterministic (executable) functions —
no claim below depends on any property of the hash beyond determinism.
-/

namespace Miden

/-- A field element of the Miden field, modelled as a natural number. -/
abbrev Felt := Nat

/-- The Miden prime `p = 2^64 - 2^32 + 1`. -/
def feltP : Nat := 18446744069414584321

/-- The zero field element (`ZERO` in the source). -/
def ZERO : Felt := 0

/-- A word: four field elements. -/
structure Word where
  w0 : Felt
  w1 : Felt
  w2 : Felt
  w3 : Felt
deriving DecidableEq, Repr

/-- The list of the four elements of a word, in order. -/
def Word.toList (w : Word) : List Felt := [w.w0, w.w1, w.w2, w.w3]

/-- Source `EMPTY_WORD`: the all-zero word. -/
def EMPTY_WORD : Word := ⟨0, 0, 0, 0⟩

/-- A digest is a word of four field elements. -/
abbrev Digest := Word

/-- Pairing of two naturals, used as the mixing step of the modelled hash. -/
def pairNat (a b : Nat) : Nat := (a + b) * (a + b + 1) / 2 + b

/-- Collapse a list of naturals into one natural by iterated pairing. -/
def foldNat (l : List Nat) : Nat := l.foldl pairNat 0

/-- Modelled from the spec: the RPO hash collaborator's two-to-one merge
(`Hasher::merge`). The claims below use only that it is a fixed deterministic
function of its two inputs, so it is modelled as an explicit pairing. -/
def merge (a b : Digest) : Digest :=
  ⟨pairNat (foldNat a.toList) (foldNat b.toList), 0, 0, 1⟩

/-- Modelled from the spec: hashing a list of words
(`Hasher::hash_elements` over the flattened words). -/
def hashWords (ws : List Word) : Digest :=
  ⟨foldNat (ws.map (fun w => foldNat w.toList)), 0, 0, 2⟩

/-- An account identifier, one field element (`AccountId`). -/
abbrev AccountId := Felt

/-- An asset; opaque here beyond "serializes to one 4-field-element word". -/
abbrev Asset := Word

-- ERRORS
-- =====================================================================

/-- Errors raised by note construction (`NoteError`). -/
inductive NoteError where
  | tooManyInputs (n : Nat)
  | duplicateAsset
  | inconsistentTag
  | scriptCompilationError
deriving DecidableEq, Repr

/-- Errors raised by deserialization (`DeserializationError`). -/
inductive DeserializationError where
  | unexpectedEOF
  | invalidValue (v : Nat)
deriving DecidableEq, Repr

-- NOTE SCRIPT
-- =====================================================================

/-- Modelled from the spec: `NoteScript`, a compiled, content-addressed
executable fragment, held as its compiled byte blob. -/
structure NoteScript where
  bytes : List Nat
deriving DecidableEq, Repr

/-- Modelled from the spec: the script's identity is the hash of its
compiled code block. -/
def NoteScript.hash (s : NoteScript) : Digest :=
  ⟨foldNat s.bytes, 0, 0, 3⟩

-- NOTE INPUTS
-- =====================================================================

/-- Modelled from the spec: the protocol-defined maximum number of note
inputs. The spec states the bound exists but not its value; it is taken
as 128 (any bound of at least 9 gives the same theorems below). -/
def MAX_INPUTS_PER_NOTE : Nat := 128

/-- Modelled from the spec: `NoteInputs`, an ordered sequence of field
elements customizing script behavior, of bounded length. -/
structure NoteInputs where
  values : List Felt
deriving DecidableEq, Repr

/-- Modelled from the spec: `NoteInputs::new` validates the input-count
bound and fails with a descriptive error otherwise. -/
def NoteInputs.new (values : List Felt) : Except NoteError NoteInputs :=
  if values.length ≤ MAX_INPUTS_PER_NOTE then .ok ⟨values⟩
  else .error (.tooManyInputs values.length)

/-- Modelled from the spec: the commitment to the note inputs. -/
def NoteInputs.hash (i : NoteInputs) : Digest :=
  ⟨foldNat i.values, 0, 0, 4⟩

-- NOTE ASSETS
-- =====================================================================

/-- Modelled from the spec: `NoteAssets`, an order-irrelevant set of
assets attached to a note. -/
structure NoteAssets where
  assets : List Asset
deriving DecidableEq, Repr

/-- Modelled from the spec: `NoteAssets::new` enforces the uniqueness
rule on the asset list (asset-validity checks are collaborator-enforced
and assumed correct). -/
def NoteAssets.new (assets : List Asset) : Except NoteError NoteAssets :=
  if assets.Nodup then .ok ⟨assets⟩ else .error .duplicateAsset

/-- Modelled from the spec: the commitment (hash) over the asset
contents. -/
def NoteAssets.commitment (a : NoteAssets) : Digest := hashWords a.assets

-- NOTE TAG / NOTE TYPE
-- =====================================================================

/-- The type of a note: public, private, or encrypted. -/
inductive NoteType where
  | public
  | private_kind
  | encrypted
deriving DecidableEq, Repr

/-- The wire discriminant of a note type. -/
def NoteType.code : NoteType → Nat
  | .public => 0
  | .private_kind => 1
  | .encrypted => 2

/-- Decoding of a note-type discriminant. -/
def NoteType.ofCode : Nat → Except DeserializationError NoteType
  | 0 => .ok .public
  | 1 => .ok .private_kind
  | 2 => .ok .encrypted
  | v => .error (.invalidValue v)

/-- The execution hint attached to a tag derivation. -/
inductive NoteExecutionHint where
  | local_hint
deriving DecidableEq, Repr

/-- A note tag: a 32-bit routing/discovery value. -/
structure NoteTag where
  val : Nat
deriving DecidableEq, Repr

/-- The raw value of a tag (`NoteTag::inner`). -/
def NoteTag.inner (t : NoteTag) : Nat := t.val

/-- Modelled from the spec: `NoteTag::from_account_id` derives a tag
deterministically from an account id; tags carrying the local execution
hint set the two high bits of the 32-bit value. -/
def NoteTag.from_account_id (id : AccountId) (hint : NoteExecutionHint) :
    Except NoteError NoteTag :=
  match hint with
  | .local_hint => .ok ⟨3 * 2 ^ 30 + id % 2 ^ 30⟩

/-- Modelled from the spec: the tag's high bits encode note-type
compatibility — a tag without the local-execution high bits is
public-only and may not be combined with a non-public note type. -/
def NoteTag.validFor (t : NoteTag) (ty : NoteType) : Bool :=
  ty == .public || t.val / 2 ^ 30 == 3

-- NOTE METADATA
-- =====================================================================

/-- Modelled from the spec: `NoteMetadata`, the always-public fields of a
note: sender, note type, tag, and auxiliary value. -/
structure NoteMetadata where
  sender : AccountId
  note_type : NoteType
  tag : NoteTag
  aux : Felt
deriving DecidableEq, Repr

/-- Modelled from the spec: `NoteMetadata::new` cross-validates the tag
against the note type and fails on an incompatible pair. -/
def NoteMetadata.new (sender : AccountId) (note_type : NoteType)
    (tag : NoteTag) (aux : Felt) : Except NoteError NoteMetadata :=
  if tag.validFor note_type then .ok ⟨sender, note_type, tag, aux⟩
  else .error .inconsistentTag

-- NOTE RECIPIENT / NOTE DETAILS / NOTE HEADER
-- =====================================================================

/-- Modelled from the spec: `NoteRecipient` binds
`(serial_number, script, inputs)`. -/
structure NoteRecipient where
  serial_num : Word
  script : NoteScript
  inputs : NoteInputs
deriving DecidableEq, Repr

/-- Source `NoteRecipient::new` (pure construction). -/
def NoteRecipient.new (serial_num : Word) (script : NoteScript)
    (inputs : NoteInputs) : NoteRecipient :=
  ⟨serial_num, script, inputs⟩

/-- Modelled from the spec: the recipient digest is the three-level hash
chain `hash(hash(hash(serial_number, EMPTY_WORD), script.hash()), inputs.hash())`. -/
def NoteRecipient.digest (r : NoteRecipient) : Digest :=
  merge (merge (merge r.serial_num EMPTY_WORD) r.script.hash) r.inputs.hash

/-- A note identifier: the public commitment to the note. -/
structure NoteId where
  inner : Digest
deriving DecidableEq, Repr

/-- A nullifier: the double-spend tag revealed on consumption. -/
structure Nullifier where
  inner : Digest
deriving DecidableEq, Repr

/-- Modelled from the spec: the domain-separation tag distinguishing the
nullifier hash from the id hash. -/
def NULLIFIER_DOMAIN : Word := ⟨1, 1, 1, 1⟩

/-- Modelled from the spec: `NoteDetails`, the `(assets, recipient)` pair. -/
structure NoteDetails where
  assets : NoteAssets
  recipient : NoteRecipient
deriving DecidableEq, Repr

/-- Source `NoteDetails::new` (pure construction). -/
def NoteDetails.new (assets : NoteAssets) (recipient : NoteRecipient) :
    NoteDetails :=
  ⟨assets, recipient⟩

/-- Modelled from the spec: the note id is
`hash(recipient.digest(), assets.commitment())`. -/
def NoteDetails.id (d : NoteDetails) : NoteId :=
  ⟨merge d.recipient.digest d.assets.commitment⟩

/-- Modelled from the spec: the nullifier is the hash of the recipient
digest and the asset commitment together with a domain-separation tag,
deliberately distinct from the id hash. -/
def NoteDetails.nullifier (d : NoteDetails) : Nullifier :=
  ⟨hashWords [d.recipient.digest, d.assets.commitment, NULLIFIER_DOMAIN]⟩

/-- Source `NoteDetails::into_parts`. -/
def NoteDetails.into_parts (d : NoteDetails) : NoteAssets × NoteRecipient :=
  (d.assets, d.recipient)

/-- The serial number of the details' recipient. -/
def NoteDetails.serial_num (d : NoteDetails) : Word := d.recipient.serial_num

/-- Source `NoteHeader`: the minimal public commitment to a note. -/
structure NoteHeader where
  id : NoteId
  metadata : NoteMetadata
deriving DecidableEq, Repr

/-- Source `NoteHeader::new`. -/
def NoteHeader.new (id : NoteId) (metadata : NoteMetadata) : NoteHeader :=
  ⟨id, metadata⟩

-- NOTE
-- =====================================================================

/-- The `Note` aggregate from `objects/src/notes/mod.rs`: header, details
and nullifier. -/
structure Note where
  header : NoteHeader
  details : NoteDetails
  nullifier : Nullifier
deriving DecidableEq, Repr

/-- Source `Note::new`: builds the details, derives the header from the details'
id and the metadata, and computes the nullifier from the details. -/
def Note.new (assets : NoteAssets) (metadata : NoteMetadata)
    (recipient : NoteRecipient) : Note :=
  let details := NoteDetails.new assets recipient
  let header := NoteHeader.new details.id metadata
  let nullifier := details.nullifier
  ⟨header, details, nullifier⟩

/-- Source `Note::id`. -/
def Note.id (n : Note) : NoteId := n.header.id

/-- Source `Note::metadata`. -/
def Note.metadata (n : Note) : NoteMetadata := n.header.metadata

/-- Source `Note::assets`. -/
def Note.assets (n : Note) : NoteAssets := n.details.assets

/-- Source `Note::serial_num`. -/
def Note.serial_num (n : Note) : Word := n.details.serial_num

/-- Source `Note::script`. -/
def Note.script (n : Note) : NoteScript := n.details.recipient.script

/-- Source `Note::inputs`. -/
def Note.inputs (n : Note) : NoteInputs := n.details.recipient.inputs

/-- Source `Note::recipient`. -/
def Note.recipient (n : Note) : NoteRecipient := n.details.recipient

-- SERIALIZATION (wire format, at field-element/token granularity)
-- =====================================================================

/-- Modelled from the spec: the serialization of `NoteMetadata` writes
its fields in order — sender id, note type tag, tag value, aux. -/
def NoteMetadata.write (m : NoteMetadata) : List Nat :=
  [m.sender, m.note_type.code, m.tag.val, m.aux]

/-- Modelled from the spec: the serialization of `NoteAssets` writes its
contents — the asset count followed by each asset's word. -/
def NoteAssets.write (a : NoteAssets) : List Nat :=
  a.assets.length :: a.assets.flatMap Word.toList

/-- Modelled from the spec: the serialization of a `NoteScript` writes
its compiled byte blob, length first. -/
def NoteScript.write (s : NoteScript) : List Nat :=
  s.bytes.length :: s.bytes

/-- Modelled from the spec: the serialization of `NoteInputs` writes the
value count followed by the values. -/
def NoteInputs.write (i : NoteInputs) : List Nat :=
  i.values.length :: i.values

/-- Modelled from the spec: the serialization of `NoteRecipient` writes
`(serial_number, script, inputs)` in order. -/
def NoteRecipient.write (r : NoteRecipient) : List Nat :=
  r.serial_num.toList ++ r.script.write ++ r.inputs.write

/-- Modelled from the spec: the serialization of `NoteDetails` writes the
assets then the recipient. -/
def NoteDetails.write (d : NoteDetails) : List Nat :=
  d.assets.write ++ d.recipient.write

/-- Source `Serializable for Note` (`objects/src/notes/mod.rs`): the nullifier
is not serialized, and of the header only the metadata is written,
followed by the details. -/
def Note.write (n : Note) : List Nat :=
  n.header.metadata.write ++ n.details.write

/-- Read one token from the stream. -/
def readNat : List Nat → Except DeserializationError (Nat × List Nat)
  | [] => .error .unexpectedEOF
  | x :: rest => .ok (x, rest)

/-- Read `n` tokens from the stream. -/
def readMany : Nat → List Nat → Except DeserializationError (List Nat × List Nat)
  | 0, l => .ok ([], l)
  | _ + 1, [] => .error .unexpectedEOF
  | n + 1, x :: rest => do
    let (xs, r) ← readMany n rest
    .ok (x :: xs, r)

/-- Read one word (four field elements) from the stream. -/
def readWord (l : List Nat) : Except DeserializationError (Word × List Nat) := do
  let (xs, r) ← readMany 4 l
  match xs with
  | [a, b, c, d] => .ok (⟨a, b, c, d⟩, r)
  | _ => .error .unexpectedEOF

/-- Read `n` words from the stream. -/
def readWords : Nat → List Nat → Except DeserializationError (List Word × List Nat)
  | 0, l => .ok ([], l)
  | n + 1, l => do
    let (w, r) ← readWord l
    let (ws, r2) ← readWords n r
    .ok (w :: ws, r2)

/-- Modelled from the spec: deserialization of `NoteMetadata` reads the
fields in order and re-validates via `NoteMetadata::new`, surfacing a
structural validation error on an incompatible tag/type pair. -/
def NoteMetadata.read (l : List Nat) :
    Except DeserializationError (NoteMetadata × List Nat) := do
  let (sender, r1) ← readNat l
  let (tyc, r2) ← readNat r1
  let ty ← NoteType.ofCode tyc
  let (tagv, r3) ← readNat r2
  let (aux, r4) ← readNat r3
  match NoteMetadata.new sender ty ⟨tagv⟩ aux with
  | .ok m => .ok (m, r4)
  | .error _ => .error (.invalidValue tagv)

/-- Modelled from the spec: deserialization of `NoteAssets` reads the
count and contents and re-validates via `NoteAssets::new`. -/
def NoteAssets.read (l : List Nat) :
    Except DeserializationError (NoteAssets × List Nat) := do
  let (count, r1) ← readNat l
  let (ws, r2) ← readWords count r1
  match NoteAssets.new ws with
  | .ok a => .ok (a, r2)
  | .error _ => .error (.invalidValue count)

/-- Modelled from the spec: deserialization of `NoteScript` reads the
byte blob back. -/
def NoteScript.read (l : List Nat) :
    Except DeserializationError (NoteScript × List Nat) := do
  let (len, r1) ← readNat l
  let (bs, r2) ← readMany len r1
  .ok (⟨bs⟩, r2)

/-- Modelled from the spec: deserialization of `NoteInputs` reads the
values back and re-validates the count bound via `NoteInputs::new`. -/
def NoteInputs.read (l : List Nat) :
    Except DeserializationError (NoteInputs × List Nat) := do
  let (len, r1) ← readNat l
  let (vs, r2) ← readMany len r1
  match NoteInputs.new vs with
  | .ok i => .ok (i, r2)
  | .error _ => .error (.invalidValue len)

/-- Modelled from the spec: deserialization of `NoteRecipient` reads
`(serial_number, script, inputs)` in order. -/
def NoteRecipient.read (l : List Nat) :
    Except DeserializationError (NoteRecipient × List Nat) := do
  let (sn, r1) ← readWord l
  let (sc, r2) ← NoteScript.read r1
  let (inp, r3) ← NoteInputs.read r2
  .ok (⟨sn, sc, inp⟩, r3)

/-- Modelled from the spec: deserialization of `NoteDetails` reads the
assets then the recipient. -/
def NoteDetails.read (l : List Nat) :
    Except DeserializationError (NoteDetails × List Nat) := do
  let (a, r1) ← NoteAssets.read l
  let (rec, r2) ← NoteRecipient.read r1
  .ok (⟨a, rec⟩, r2)

/-- Source `Deserializable for Note` (`objects/src/notes/mod.rs`): reads the
metadata, then the details, splits the details into parts and rebuilds
the note via `Note::new` — recomputing id and nullifier. -/
def Note.read (l : List Nat) :
    Except DeserializationError (Note × List Nat) := do
  let (metadata, r1) ← NoteMetadata.read l
  let (details, r2) ← NoteDetails.read r1
  let (assets, recipient) := details.into_parts
  .ok (Note.new assets metadata recipient, r2)

-- RANDOMNESS SOURCE
-- =====================================================================

/-- Modelled from the spec: the caller-supplied randomness source
(`FeltRng`): a stream of words together with a position; drawing a word
returns the word at the current position and advances the position. -/
structure FeltRng where
  stream : Nat → Word
  pos : Nat

/-- Source `FeltRng::draw_word`: draw the next word and advance the source. -/
def FeltRng.draw_word (r : FeltRng) : Word × FeltRng :=
  (r.stream r.pos, ⟨r.stream, r.pos + 1⟩)

-- STANDARDIZED NOTE BUILDERS (miden-lib/src/notes/mod.rs)
-- =====================================================================

/-- Modelled from the spec: the embedded compiled `P2ID.masb` script
bytes, an opaque build-time blob. -/
def P2ID_SCRIPT_BYTES : List Nat := [0]

/-- Modelled from the spec: the embedded compiled `P2IDR.masb` script
bytes, an opaque build-time blob. -/
def P2IDR_SCRIPT_BYTES : List Nat := [1]

/-- Modelled from the spec: the embedded compiled `SWAP.masb` script
bytes, an opaque build-time blob. -/
def SWAP_SCRIPT_BYTES : List Nat := [2]

/-- Modelled from the spec: the script-compilation collaborator
`build_note_script` (`compile(bytes) -> Result<NoteScript, Error>`); the
result is content-addressed by the compiled bytes. The embedded blobs
are valid build-time assets, so compiling them succeeds. -/
def build_note_script (bytes : List Nat) : Except NoteError NoteScript :=
  .ok ⟨bytes⟩

/-- Modelled from the spec: the P2ID script as used for a payback note
addressed to `target` (`p2id_script_for` in the spec); the spec treats
it as a deterministic function of the target. -/
def p2id_script_for (target : AccountId) : NoteScript :=
  ⟨P2ID_SCRIPT_BYTES ++ [target]⟩

/-- Modelled from the spec: `utils::build_p2id_recipient(target,
serial_num)` returns the digest of the payback P2ID recipient
`NoteRecipient(serial_num, p2id_script_for(target), [])`. -/
def build_p2id_recipient (target : AccountId) (serial_num : Word) :
    Except NoteError Digest := do
  let note_inputs ← NoteInputs.new []
  .ok (NoteRecipient.new serial_num (p2id_script_for target) note_inputs).digest

/-- Source `create_p2id_note` from `miden-lib/src/notes/mod.rs`: inputs are the
target's account id, the tag is derived from the target with the local
execution hint, and the serial number is drawn from the rng. The moved-in
`mut rng` is modelled by returning the final rng state. -/
def create_p2id_note (sender target : AccountId) (assets : List Asset)
    (note_type : NoteType) (rng : FeltRng) :
    Except NoteError (Note × FeltRng) := do
  let note_script ← build_note_script P2ID_SCRIPT_BYTES
  let inputs ← NoteInputs.new [target]
  let tag ← NoteTag.from_account_id target .local_hint
  let (serial_num, rng) := rng.draw_word
  let aux := ZERO
  let metadata ← NoteMetadata.new sender note_type tag aux
  let vault ← NoteAssets.new assets
  let recipient := NoteRecipient.new serial_num note_script inputs
  .ok (Note.new vault metadata recipient, rng)

/-- Source `create_p2idr_note` from `miden-lib/src/notes/mod.rs`: identical to
`create_p2id_note` except the inputs additionally carry the recall
height. -/
def create_p2idr_note (sender target : AccountId) (assets : List Asset)
    (note_type : NoteType) (recall_height : Nat) (rng : FeltRng) :
    Except NoteError (Note × FeltRng) := do
  let note_script ← build_note_script P2IDR_SCRIPT_BYTES
  let inputs ← NoteInputs.new [target, recall_height]
  let tag ← NoteTag.from_account_id target .local_hint
  let (serial_num, rng) := rng.draw_word
  let aux := ZERO
  let vault ← NoteAssets.new assets
  let metadata ← NoteMetadata.new sender note_type tag aux
  let recipient := NoteRecipient.new serial_num note_script inputs
  .ok (Note.new vault metadata recipient, rng)

/-- Source `create_swap_note` from `miden-lib/src/notes/mod.rs`: draws the
payback serial number, builds the payback P2ID recipient digest, lays
out the 9 note inputs (payback recipient digest, requested asset word,
payback tag), sets the placeholder tag `0`, draws the note's own serial
number, and returns the note together with the payback serial number. -/
def create_swap_note (sender : AccountId) (offered_asset requested_asset : Asset)
    (note_type : NoteType) (rng : FeltRng) :
    Except NoteError ((Note × Word) × FeltRng) := do
  let note_script ← build_note_script SWAP_SCRIPT_BYTES
  let (payback_serial_num, rng) := rng.draw_word
  let payback_recipient ← build_p2id_recipient sender payback_serial_num
  let asset_word : Word := requested_asset
  let payback_tag ← NoteTag.from_account_id sender .local_hint
  let inputs ← NoteInputs.new [
    payback_recipient.w0,
    payback_recipient.w1,
    payback_recipient.w2,
    payback_recipient.w3,
    asset_word.w0,
    asset_word.w1,
    asset_word.w2,
    asset_word.w3,
    payback_tag.inner]
  let tag : NoteTag := ⟨0⟩
  let (serial_num, rng) := rng.draw_word
  let aux := ZERO
  let metadata ← NoteMetadata.new sender note_type tag aux
  let vault ← NoteAssets.new [offered_asset]
  let recipient := NoteRecipient.new serial_num note_script inputs
  let note := Note.new vault metadata recipient
  .ok ((note, payback_serial_num), rng)

-- TRANSACTION AUTHENTICATOR (miden-tx/src/host/tx_authenticator.rs)
-- =====================================================================

/-- Modelled from the spec: `AccountDelta`, an informational description
of pending account changes; opaque to the authenticator. -/
structure AccountDelta where
  changes : List Nat
deriving DecidableEq, Repr

/-- The state of the authenticator's random source (`R: Rng`), modelled
as an abstract counter threaded through signing. -/
abbrev RngState := Nat

/-- Errors of the authentication flow (`AuthenticationError`); the
offending key is carried for diagnostics (string messages elided). -/
inductive AuthenticationError where
  | UnknownKey (pub_key : Word)
  | RejectedSignature
deriving DecidableEq, Repr

/-- Modelled from the spec: a polynomial of degree < 512 over the Falcon
modulus, held as its 512 unsigned coefficients. -/
structure Polynomial where
  coefficients : List Nat
  coefficients_length : coefficients.length = 512

/-- Modelled from the spec: the 8-field-element signature nonce. -/
structure Nonce where
  elements : List Felt
  elements_length : elements.length = 8

/-- Source `Nonce::to_elements`: the nonce as 8 field elements. -/
def Nonce.to_elements (n : Nonce) : List Felt := n.elements

/-- Modelled from the spec: a Falcon512 signature, composed of a nonce
and a signature polynomial `s2`. -/
structure FalconSignature where
  nonce : Nonce
  sig_poly : Polynomial

/-- Modelled from the spec: a Falcon512 secret key collaborator:
signing (deterministic given the randomness state, which it advances)
and the expanded public key polynomial. -/
structure SecretKey where
  sign : Word → RngState → FalconSignature × RngState
  pub_key_poly : Polynomial

/-- Source `SecretKey::sign_with_rng`: sign a message, mutating (advancing) the
random source. -/
def SecretKey.sign_with_rng (k : SecretKey) (message : Word) (rng : RngState) :
    FalconSignature × RngState := k.sign message rng

/-- Source `SecretKey::compute_pub_key_poly`: the expanded public key
polynomial `h`. -/
def SecretKey.compute_pub_key_poly (k : SecretKey) : Polynomial :=
  k.pub_key_poly

/-- An unsigned integer coefficient coerced to a field element. -/
def feltOfUnsigned (a : Nat) : Felt := a % feltP

/-- Modelled from the spec: `Polynomial::mul_modulo_p` — the product of
the two polynomials in the ring of polynomials with coefficients in the
Miden field, reduced in the Falcon ring `x^512 + 1`, giving the 512
product coefficients prescribed by the spec's wire contract. -/
def Polynomial.mul_modulo_p (a b : Polynomial) : List Nat :=
  (List.range 512).map (fun k =>
    ((List.range 512).foldl (fun acc i =>
      if i ≤ k then
        acc + (a.coefficients.getD i 0 % feltP) * (b.coefficients.getD (k - i) 0 % feltP)
      else
        acc + (feltP * feltP -
          (a.coefficients.getD i 0 % feltP) * (b.coefficients.getD (k + 512 - i) 0 % feltP)))
      0) % feltP)

/-- Types of secret keys used for signing messages (`AuthSecretKey`). -/
inductive AuthSecretKey where
  | RpoFalcon512 (key : SecretKey)

/-- Source `AuthSecretKey::key_id`: the 1-byte scheme identifier. -/
def AuthSecretKey.key_id : AuthSecretKey → Nat
  | .RpoFalcon512 _ => 0

/-- Source `get_falcon_signature`: signs the message, extracts the nonce and the
signature polynomial `s2`, expands the public key to `h`, computes
`pi = mul_modulo_p(h, s2)`, concatenates
`nonce ++ h ++ s2 ++ pi` (coefficients coerced to field elements) and
reverses the whole sequence. The `&mut rng` is modelled by returning the
advanced state. -/
def get_falcon_signature (key : SecretKey) (message : Word) (rng : RngState) :
    Except AuthenticationError (List Felt) × RngState :=
  let (sig, rng2) := key.sign_with_rng message rng
  let nonce := sig.nonce
  let s2 := sig.sig_poly
  let h := key.compute_pub_key_poly
  let pi := Polynomial.mul_modulo_p h s2
  let result := nonce.to_elements
    ++ h.coefficients.map feltOfUnsigned
    ++ s2.coefficients.map feltOfUnsigned
    ++ pi.map feltOfUnsigned
  (.ok result.reverse, rng2)

/-- Source `BasicAuthenticator`: a public-key-to-secret-key map plus exclusive
ownership of a random source (the `RefCell` rng is modelled as explicit
state passed to `get_signature`). -/
structure BasicAuthenticator where
  keys : List (Word × AuthSecretKey)

/-- Source `BasicAuthenticator::new_with_rng` builds the key map from the given
associations; insertion order matters only for duplicate keys (later
insertions overwrite, as for the source's map). -/
def BasicAuthenticator.new_with_rng (keys : List (Word × AuthSecretKey)) :
    BasicAuthenticator := ⟨keys⟩

/-- Lookup in the key map: the last insertion for a key wins, matching
map-insert semantics of the source's key map construction. -/
def mapGet (keys : List (Word × AuthSecretKey)) (k : Word) :
    Option AuthSecretKey :=
  keys.foldl (fun acc p => if p.1 = k then some p.2 else acc) none

/-- Source `BasicAuthenticator::get_signature`: ignores the account delta, looks
the public key up in the key map, dispatches to the scheme-specific
signing routine if found, and fails with `UnknownKey` otherwise. -/
def BasicAuthenticator.get_signature (auth : BasicAuthenticator)
    (pub_key message : Word) (account_delta : AccountDelta) (rng : RngState) :
    Except AuthenticationError (List Felt) × RngState :=
  let _ := account_delta
  match mapGet auth.keys pub_key with
  | some key =>
    match key with
    | .RpoFalcon512 falcon_key => get_falcon_signature falcon_key message rng
  | none => (.error (.UnknownKey pub_key), rng)

-- ROUND-TRIP LEMMAS FOR THE WIRE FORMAT
-- =====================================================================

theorem readMany_append (l rest : List Nat) :
    readMany l.length (l ++ rest) = .ok (l, rest) := by
  induction l with
  | nil => rfl
  | cons x xs ih =>
    simp only [List.length_cons, List.cons_append, readMany, List.append_eq,
      ih, bind, Except.bind]

theorem readWord_toList (w : Word) (rest : List Nat) :
    readWord (w.toList ++ rest) = .ok (w, rest) := by
  cases w
  rfl

theorem readWords_append (ws : List Word) (rest : List Nat) :
    readWords ws.length (ws.flatMap Word.toList ++ rest) = .ok (ws, rest) := by
  induction ws with
  | nil => rfl
  | cons w tail ih =>
    simp only [List.length_cons, List.flatMap_cons, List.append_assoc, readWords]
    rw [readWord_toList]
    simp only [bind, Except.bind, ih]

theorem metadata_read_write (m : NoteMetadata)
    (hv : m.tag.validFor m.note_type = true) (rest : List Nat) :
    NoteMetadata.read (m.write ++ rest) = .ok (m, rest) := by
  obtain ⟨sender, ty, ⟨tagv⟩, aux⟩ := m
  have hcode : NoteType.ofCode ty.code = .ok ty := by cases ty <;> rfl
  simp only [NoteMetadata.write, NoteMetadata.read, List.cons_append, List.nil_append,
    readNat, bind, Except.bind, hcode, NoteMetadata.new]
  simp only [NoteTag.validFor] at hv ⊢
  rw [if_pos hv]

theorem assets_read_write (l : List Asset) (a : NoteAssets)
    (h : NoteAssets.new l = .ok a) (rest : List Nat) :
    NoteAssets.read (a.write ++ rest) = .ok (a, rest) := by
  have hvals : a.assets = l := by
    unfold NoteAssets.new at h
    split at h
    · exact congrArg NoteAssets.assets (Except.ok.inj h).symm
    · exact absurd h (by simp)
  simp only [NoteAssets.write, NoteAssets.read, hvals, List.cons_append, readNat,
    bind, Except.bind, readWords_append, h]

theorem script_read_write (s : NoteScript) (rest : List Nat) :
    NoteScript.read (s.write ++ rest) = .ok (s, rest) := by
  simp only [NoteScript.write, NoteScript.read, List.cons_append, readNat,
    bind, Except.bind, readMany_append]

theorem inputs_read_write (vals : List Felt) (i : NoteInputs)
    (h : NoteInputs.new vals = .ok i) (rest : List Nat) :
    NoteInputs.read (i.write ++ rest) = .ok (i, rest) := by
  have hvals : i.values = vals := by
    unfold NoteInputs.new at h
    split at h
    · exact congrArg NoteInputs.values (Except.ok.inj h).symm
    · exact absurd h (by simp)
  simp only [NoteInputs.write, NoteInputs.read, hvals, List.cons_append, readNat,
    bind, Except.bind, readMany_append, h]

theorem recipient_read_write (r : NoteRecipient)
    (h : NoteInputs.new r.inputs.values = .ok r.inputs) (rest : List Nat) :
    NoteRecipient.read (r.write ++ rest) = .ok (r, rest) := by
  obtain ⟨sn, sc, inp⟩ := r
  simp only [NoteRecipient.write, NoteRecipient.read, List.append_assoc,
    bind, Except.bind, readWord_toList, script_read_write,
    inputs_read_write inp.values inp h]

theorem details_read_write (d : NoteDetails)
    (ha : NoteAssets.new d.assets.assets = .ok d.assets)
    (hi : NoteInputs.new d.recipient.inputs.values = .ok d.recipient.inputs)
    (rest : List Nat) :
    NoteDetails.read (d.write ++ rest) = .ok (d, rest) := by
  obtain ⟨a, r⟩ := d
  simp only [NoteDetails.write, NoteDetails.read, List.append_assoc,
    bind, Except.bind, assets_read_write a.assets a ha,
    recipient_read_write r hi]

theorem NoteMetadata.new_valid (s : AccountId) (ty : NoteType) (tag : NoteTag)
    (aux : Felt) (m : NoteMetadata) (h : NoteMetadata.new s ty tag aux = .ok m) :
    m.tag.validFor m.note_type = true := by
  unfold NoteMetadata.new at h
  split at h
  · cases h
    assumption
  · cases h

theorem assets_new_idem (l : List Asset) (a : NoteAssets)
    (h : NoteAssets.new l = .ok a) : NoteAssets.new a.assets = .ok a := by
  unfold NoteAssets.new at h
  split at h
  · cases h
    simp only [NoteAssets.new]
    rw [if_pos ‹_›]
  · cases h

theorem inputs_new_idem (l : List Felt) (i : NoteInputs)
    (h : NoteInputs.new l = .ok i) : NoteInputs.new i.values = .ok i := by
  unfold NoteInputs.new at h
  split at h
  · cases h
    simp only [NoteInputs.new]
    rw [if_pos ‹_›]
  · cases h

theorem Note.read_shape (l : List Nat) (n : Note) (rest : List Nat)
    (h : Note.read l = .ok (n, rest)) : ∃ a m r, n = Note.new a m r := by
  unfold Note.read at h
  cases hm : NoteMetadata.read l with
  | error e =>
    rw [hm] at h
    exact absurd h (by simp [bind, Except.bind])
  | ok p =>
    obtain ⟨metadata, r1⟩ := p
    rw [hm] at h
    simp only [bind, Except.bind] at h
    cases hd : NoteDetails.read r1 with
    | error e =>
      rw [hd] at h
      exact absurd h (by simp)
    | ok q =>
      obtain ⟨details, r2⟩ := q
      rw [hd] at h
      simp only [NoteDetails.into_parts, Except.ok.injEq, Prod.mk.injEq] at h
      exact ⟨details.assets, metadata, details.recipient, h.1.symm⟩

/-- Claim C1: for every valid `Note` (assets, metadata and inputs accepted
by their validating constructors), deserializing the result of
serializing the note yields a note equal to it in all fields — header,
details and nullifier — and the serialization writes only the metadata
and the details (assets, serial number, script, inputs); the nullifier
and id are never written, being recomputed by `Note::new` on load. -/
theorem note_serialization_round_trip
    (assetList : List Asset) (sender : AccountId) (ty : NoteType)
    (tag : NoteTag) (aux : Felt) (vals : List Felt)
    (serial : Word) (script : NoteScript)
    (a : NoteAssets) (m : NoteMetadata) (i : NoteInputs) (rest : List Nat)
    (ha : NoteAssets.new assetList = .ok a)
    (hm : NoteMetadata.new sender ty tag aux = .ok m)
    (hi : NoteInputs.new vals = .ok i) :
    Note.read ((Note.new a m (NoteRecipient.new serial script i)).write ++ rest)
      = .ok (Note.new a m (NoteRecipient.new serial script i), rest)
    ∧ (Note.new a m (NoteRecipient.new serial script i)).write
      = m.write ++ (a.write ++ (serial.toList ++ script.write ++ i.write)) := by
  have hval : m.tag.validFor m.note_type = true :=
    NoteMetadata.new_valid sender ty tag aux m hm
  have ha2 : NoteAssets.new a.assets = .ok a := assets_new_idem assetList a ha
  have hi2 : NoteInputs.new i.values = .ok i := inputs_new_idem vals i hi
  constructor
  · have hw : (Note.new a m (NoteRecipient.new serial script i)).write
        = m.write ++ (NoteDetails.new a (NoteRecipient.new serial script i)).write := rfl
    rw [hw, List.append_assoc]
    unfold Note.read
    rw [metadata_read_write m hval]
    simp only [bind, Except.bind]
    rw [details_read_write (NoteDetails.new a (NoteRecipient.new serial script i)) ha2 hi2]
    rfl
  · rfl

/-- Concrete instantiation of `note_serialization_round_trip`. -/
theorem note_serialization_round_trip_witness :
    NoteAssets.new [(⟨1, 0, 0, 0⟩ : Word)] = .ok ⟨[⟨1, 0, 0, 0⟩]⟩
    ∧ NoteMetadata.new 5 .public ⟨7⟩ 0 = .ok ⟨5, .public, ⟨7⟩, 0⟩
    ∧ NoteInputs.new [42] = .ok ⟨[42]⟩
    ∧ (Note.read ((Note.new ⟨[⟨1, 0, 0, 0⟩]⟩ ⟨5, .public, ⟨7⟩, 0⟩
          (NoteRecipient.new ⟨1, 2, 3, 4⟩ ⟨[9]⟩ ⟨[42]⟩)).write ++ [])
        = .ok (Note.new ⟨[⟨1, 0, 0, 0⟩]⟩ ⟨5, .public, ⟨7⟩, 0⟩
          (NoteRecipient.new ⟨1, 2, 3, 4⟩ ⟨[9]⟩ ⟨[42]⟩), [])
      ∧ (Note.new ⟨[⟨1, 0, 0, 0⟩]⟩ ⟨5, .public, ⟨7⟩, 0⟩
          (NoteRecipient.new ⟨1, 2, 3, 4⟩ ⟨[9]⟩ ⟨[42]⟩)).write
        = NoteMetadata.write ⟨5, .public, ⟨7⟩, 0⟩
          ++ (NoteAssets.write ⟨[⟨1, 0, 0, 0⟩]⟩
            ++ (Word.toList ⟨1, 2, 3, 4⟩ ++ NoteScript.write ⟨[9]⟩
              ++ NoteInputs.write ⟨[42]⟩))) :=
  ⟨rfl, rfl, rfl,
    note_serialization_round_trip [⟨1, 0, 0, 0⟩] 5 .public ⟨7⟩ 0 [42]
      ⟨1, 2, 3, 4⟩ ⟨[9]⟩ ⟨[⟨1, 0, 0, 0⟩]⟩ ⟨5, .public, ⟨7⟩, 0⟩ ⟨[42]⟩ []
      rfl rfl rfl⟩

/-- Claim C2: every note constructible through the public interface —
`Note::new` or deserialization — has a header id equal to the hash of
the recipient digest and the asset commitment, and a stored nullifier
equal to the nullifier derived from its details; no operation sets
these fields independently. -/
theorem note_derived_fields_invariant (n : Note)
    (h : (∃ a m r, n = Note.new a m r)
      ∨ ∃ l rest, Note.read l = .ok (n, rest)) :
    n.header.id = ⟨merge n.details.recipient.digest n.details.assets.commitment⟩
    ∧ n.nullifier = n.details.nullifier := by
  obtain ⟨a, m, r, rfl⟩ | ⟨l, rest, hr⟩ := h
  · exact ⟨rfl, rfl⟩
  · obtain ⟨a, m, r, rfl⟩ := Note.read_shape l n rest hr
    exact ⟨rfl, rfl⟩

/-- Concrete instantiation of `note_derived_fields_invariant`. -/
theorem note_derived_fields_invariant_witness :
    ((∃ a m r, Note.new ⟨[]⟩ ⟨1, .public, ⟨0⟩, 0⟩
        (NoteRecipient.new ⟨0, 0, 0, 0⟩ ⟨[]⟩ ⟨[]⟩) = Note.new a m r)
      ∨ ∃ l rest, Note.read l
        = .ok (Note.new ⟨[]⟩ ⟨1, .public, ⟨0⟩, 0⟩
          (NoteRecipient.new ⟨0, 0, 0, 0⟩ ⟨[]⟩ ⟨[]⟩), rest))
    ∧ ((Note.new ⟨[]⟩ ⟨1, .public, ⟨0⟩, 0⟩
          (NoteRecipient.new ⟨0, 0, 0, 0⟩ ⟨[]⟩ ⟨[]⟩)).header.id
        = ⟨merge (Note.new ⟨[]⟩ ⟨1, .public, ⟨0⟩, 0⟩
            (NoteRecipient.new ⟨0, 0, 0, 0⟩ ⟨[]⟩ ⟨[]⟩)).details.recipient.digest
            (Note.new ⟨[]⟩ ⟨1, .public, ⟨0⟩, 0⟩
              (NoteRecipient.new ⟨0, 0, 0, 0⟩ ⟨[]⟩ ⟨[]⟩)).details.assets.commitment⟩
      ∧ (Note.new ⟨[]⟩ ⟨1, .public, ⟨0⟩, 0⟩
          (NoteRecipient.new ⟨0, 0, 0, 0⟩ ⟨[]⟩ ⟨[]⟩)).nullifier
        = (Note.new ⟨[]⟩ ⟨1, .public, ⟨0⟩, 0⟩
            (NoteRecipient.new ⟨0, 0, 0, 0⟩ ⟨[]⟩ ⟨[]⟩)).details.nullifier) :=
  ⟨Or.inl ⟨_, _, _, rfl⟩,
    note_derived_fields_invariant _ (Or.inl ⟨_, _, _, rfl⟩)⟩

-- BUILDER REDUCTION LEMMAS
-- =====================================================================

theorem build_note_script_ok (b : List Nat) : build_note_script b = .ok ⟨b⟩ := rfl

theorem inputs_new_one (x : Felt) : NoteInputs.new [x] = .ok ⟨[x]⟩ := rfl

theorem inputs_new_two (x y : Felt) : NoteInputs.new [x, y] = .ok ⟨[x, y]⟩ := rfl

theorem inputs_new_nine (a1 a2 a3 a4 a5 a6 a7 a8 a9 : Felt) :
    NoteInputs.new [a1, a2, a3, a4, a5, a6, a7, a8, a9]
      = .ok ⟨[a1, a2, a3, a4, a5, a6, a7, a8, a9]⟩ := rfl

theorem assets_new_singleton (a : Asset) : NoteAssets.new [a] = .ok ⟨[a]⟩ := by
  simp [NoteAssets.new]

theorem NoteTag.from_account_id_local (id : AccountId) :
    NoteTag.from_account_id id .local_hint = .ok ⟨3 * 2 ^ 30 + id % 2 ^ 30⟩ := rfl

theorem build_p2id_recipient_ok (t : AccountId) (sn : Word) :
    build_p2id_recipient t sn
      = .ok (NoteRecipient.new sn (p2id_script_for t) ⟨[]⟩).digest := rfl

theorem NoteMetadata.new_fields (s : AccountId) (ty : NoteType) (tag : NoteTag)
    (aux : Felt) (m : NoteMetadata) (h : NoteMetadata.new s ty tag aux = .ok m) :
    m = ⟨s, ty, tag, aux⟩ := by
  unfold NoteMetadata.new at h
  split at h
  · cases h; rfl
  · cases h

-- TEST FIXTURES (used by the concrete witnesses below)
-- =====================================================================

/-- A concrete word stream for witness randomness. -/
def testStream : Nat → Word := fun n => ⟨n, n, n, n⟩

/-- A concrete randomness source at position 0. -/
def testRng : FeltRng := ⟨testStream, 0⟩

/-- The note produced by `create_p2id_note 1 2 [⟨3,0,0,0⟩] .public testRng`. -/
def p2idTestNote : Note :=
  Note.new ⟨[⟨3, 0, 0, 0⟩]⟩ ⟨1, .public, ⟨3 * 2 ^ 30 + 2⟩, 0⟩
    (NoteRecipient.new ⟨0, 0, 0, 0⟩ ⟨P2ID_SCRIPT_BYTES⟩ ⟨[2]⟩)

/-- The note produced by `create_p2idr_note 1 2 [⟨3,0,0,0⟩] .public 77 testRng`. -/
def p2idrTestNote : Note :=
  Note.new ⟨[⟨3, 0, 0, 0⟩]⟩ ⟨1, .public, ⟨3 * 2 ^ 30 + 2⟩, 0⟩
    (NoteRecipient.new ⟨0, 0, 0, 0⟩ ⟨P2IDR_SCRIPT_BYTES⟩ ⟨[2, 77]⟩)

/-- The payback recipient digest drawn inside the witness swap call. -/
def swapTestDigest : Digest :=
  (NoteRecipient.new ⟨0, 0, 0, 0⟩ (p2id_script_for 1) ⟨[]⟩).digest

/-- The note produced by
`create_swap_note 1 ⟨1,0,0,0⟩ ⟨2,0,0,0⟩ .public testRng`. -/
def swapTestNote : Note :=
  Note.new ⟨[⟨1, 0, 0, 0⟩]⟩ ⟨1, .public, ⟨0⟩, 0⟩
    (NoteRecipient.new ⟨1, 1, 1, 1⟩ ⟨SWAP_SCRIPT_BYTES⟩
      ⟨[swapTestDigest.w0, swapTestDigest.w1, swapTestDigest.w2, swapTestDigest.w3,
        2, 0, 0, 0, 3 * 2 ^ 30 + 1]⟩)

-- BUILDER THEOREMS
-- =====================================================================

/-- Claim C6: a successful `create_p2id_note` call produces a note whose
inputs are the single element `[target]` and whose tag is
`NoteTag::from_account_id(target, Local)`. -/
theorem create_p2id_note_inputs_and_tag (sender target : AccountId)
    (assets : List Asset) (ty : NoteType) (rng : FeltRng)
    (note : Note) (rng2 : FeltRng)
    (h : create_p2id_note sender target assets ty rng = .ok (note, rng2)) :
    note.inputs.values = [target]
    ∧ NoteTag.from_account_id target .local_hint = .ok note.metadata.tag := by
  unfold create_p2id_note at h
  rw [build_note_script_ok, inputs_new_one, NoteTag.from_account_id_local] at h
  simp only [bind, Except.bind] at h
  cases hm : NoteMetadata.new sender ty ⟨3 * 2 ^ 30 + target % 2 ^ 30⟩ ZERO with
  | error e => rw [hm] at h; exact Except.noConfusion h
  | ok m =>
    rw [hm] at h
    cases hv : NoteAssets.new assets with
    | error e => rw [hv] at h; exact Except.noConfusion h
    | ok v =>
      obtain rfl := NoteMetadata.new_fields sender ty _ ZERO m hm
      rw [hv] at h
      simp only [Except.ok.injEq, Prod.mk.injEq] at h
      obtain ⟨hn, -⟩ := h
      rw [← hn]
      exact ⟨rfl, rfl⟩

/-- Concrete instantiation of `create_p2id_note_inputs_and_tag`. -/
theorem create_p2id_note_inputs_and_tag_witness :
    create_p2id_note 1 2 [⟨3, 0, 0, 0⟩] .public testRng
      = .ok (p2idTestNote, ⟨testStream, 1⟩)
    ∧ p2idTestNote.inputs.values = [2]
    ∧ NoteTag.from_account_id 2 .local_hint = .ok p2idTestNote.metadata.tag :=
  ⟨rfl,
    (create_p2id_note_inputs_and_tag 1 2 [⟨3, 0, 0, 0⟩] .public testRng
      p2idTestNote ⟨testStream, 1⟩ rfl).1,
    (create_p2id_note_inputs_and_tag 1 2 [⟨3, 0, 0, 0⟩] .public testRng
      p2idTestNote ⟨testStream, 1⟩ rfl).2⟩

/-- Claim C7: a successful `create_p2idr_note` call produces a note whose
inputs are `[target, recall_height]` and whose tag is
`NoteTag::from_account_id(target, Local)` — identical to
`create_p2id_note` apart from the added recall-height input. -/
theorem create_p2idr_note_inputs_and_tag (sender target : AccountId)
    (assets : List Asset) (ty : NoteType) (recall_height : Nat) (rng : FeltRng)
    (note : Note) (rng2 : FeltRng)
    (h : create_p2idr_note sender target assets ty recall_height rng
      = .ok (note, rng2)) :
    note.inputs.values = [target, recall_height]
    ∧ NoteTag.from_account_id target .local_hint = .ok note.metadata.tag := by
  unfold create_p2idr_note at h
  rw [build_note_script_ok, inputs_new_two, NoteTag.from_account_id_local] at h
  simp only [bind, Except.bind] at h
  cases hv : NoteAssets.new assets with
  | error e => rw [hv] at h; exact Except.noConfusion h
  | ok v =>
    rw [hv] at h
    cases hm : NoteMetadata.new sender ty ⟨3 * 2 ^ 30 + target % 2 ^ 30⟩ ZERO with
    | error e => rw [hm] at h; exact Except.noConfusion h
    | ok m =>
      obtain rfl := NoteMetadata.new_fields sender ty _ ZERO m hm
      rw [hm] at h
      simp only [Except.ok.injEq, Prod.mk.injEq] at h
      obtain ⟨hn, -⟩ := h
      rw [← hn]
      exact ⟨rfl, rfl⟩

/-- Concrete instantiation of `create_p2idr_note_inputs_and_tag`. -/
theorem create_p2idr_note_inputs_and_tag_witness :
    create_p2idr_note 1 2 [⟨3, 0, 0, 0⟩] .public 77 testRng
      = .ok (p2idrTestNote, ⟨testStream, 1⟩)
    ∧ p2idrTestNote.inputs.values = [2, 77]
    ∧ NoteTag.from_account_id 2 .local_hint = .ok p2idrTestNote.metadata.tag :=
  ⟨rfl,
    (create_p2idr_note_inputs_and_tag 1 2 [⟨3, 0, 0, 0⟩] .public 77 testRng
      p2idrTestNote ⟨testStream, 1⟩ rfl).1,
    (create_p2idr_note_inputs_and_tag 1 2 [⟨3, 0, 0, 0⟩] .public 77 testRng
      p2idrTestNote ⟨testStream, 1⟩ rfl).2⟩

/-- Shape of every successful `create_swap_note` call: the metadata
construction succeeded on the placeholder tag, the payback serial is the
first draw, the note serial the second, and the note is fully
determined by the arguments and the two draws. -/
theorem create_swap_note_shape (sender : AccountId)
    (offered requested : Asset) (ty : NoteType) (rng : FeltRng)
    (note : Note) (pb : Word) (rng2 : FeltRng)
    (h : create_swap_note sender offered requested ty rng
      = .ok ((note, pb), rng2)) :
    ∃ m, NoteMetadata.new sender ty ⟨0⟩ ZERO = .ok m
      ∧ pb = rng.draw_word.1
      ∧ rng2 = rng.draw_word.2.draw_word.2
      ∧ note = Note.new ⟨[offered]⟩ m
        (NoteRecipient.new rng.draw_word.2.draw_word.1 ⟨SWAP_SCRIPT_BYTES⟩
          ⟨[((NoteRecipient.new rng.draw_word.1 (p2id_script_for sender) ⟨[]⟩).digest).w0,
            ((NoteRecipient.new rng.draw_word.1 (p2id_script_for sender) ⟨[]⟩).digest).w1,
            ((NoteRecipient.new rng.draw_word.1 (p2id_script_for sender) ⟨[]⟩).digest).w2,
            ((NoteRecipient.new rng.draw_word.1 (p2id_script_for sender) ⟨[]⟩).digest).w3,
            requested.w0, requested.w1, requested.w2, requested.w3,
            3 * 2 ^ 30 + sender % 2 ^ 30]⟩) := by
  rcases hd : rng.draw_word with ⟨pbsn, rng1⟩
  rcases hd2 : rng1.draw_word with ⟨sn2, rng3⟩
  unfold create_swap_note at h
  rw [build_note_script_ok] at h
  simp only [bind, Except.bind] at h
  rw [hd] at h
  simp only [build_p2id_recipient_ok, NoteTag.from_account_id_local,
    inputs_new_nine, bind, Except.bind, NoteTag.inner] at h
  rw [hd2] at h
  simp only [assets_new_singleton, bind, Except.bind] at h
  cases hm : NoteMetadata.new sender ty ⟨0⟩ ZERO with
  | error e => rw [hm] at h; exact Except.noConfusion h
  | ok m =>
    rw [hm] at h
    simp only [Except.ok.injEq, Prod.mk.injEq] at h
    obtain ⟨⟨hn, hp⟩, hr⟩ := h
    exact ⟨m, rfl, hp.symm, hr.symm, hn.symm⟩

/-- Claim C4: a successful `create_swap_note` call produces a note with
exactly 9 input elements: elements 0–3 are the digest of the payback
P2ID recipient built from the returned payback serial number, elements
4–7 are the word-encoding of the requested asset, and element 8 is the
tag derived from the sender. -/
theorem create_swap_note_inputs_layout (sender : AccountId)
    (offered requested : Asset) (ty : NoteType) (rng : FeltRng)
    (note : Note) (pb : Word) (rng2 : FeltRng)
    (h : create_swap_note sender offered requested ty rng
      = .ok ((note, pb), rng2)) :
    note.inputs.values.length = 9
    ∧ ∃ d tagp, build_p2id_recipient sender pb = .ok d
      ∧ NoteTag.from_account_id sender .local_hint = .ok tagp
      ∧ note.inputs.values = d.toList ++ requested.toList ++ [tagp.inner] := by
  obtain ⟨m, -, hp, -, hn⟩ :=
    create_swap_note_shape sender offered requested ty rng note pb rng2 h
  subst hn
  subst hp
  refine ⟨rfl, _, _, rfl, rfl, ?_⟩
  cases hdig : (NoteRecipient.new rng.draw_word.1 (p2id_script_for sender)
    (⟨[]⟩ : NoteInputs)).digest
  cases requested
  simp [Note.inputs, Note.new, NoteDetails.new, NoteRecipient.new, hdig, Word.toList,
    NoteTag.inner]

/-- Concrete instantiation of `create_swap_note_inputs_layout`. -/
theorem create_swap_note_inputs_layout_witness :
    create_swap_note 1 ⟨1, 0, 0, 0⟩ ⟨2, 0, 0, 0⟩ .public testRng
      = .ok ((swapTestNote, ⟨0, 0, 0, 0⟩), ⟨testStream, 2⟩)
    ∧ (swapTestNote.inputs.values.length = 9
      ∧ ∃ d tagp, build_p2id_recipient 1 ⟨0, 0, 0, 0⟩ = .ok d
        ∧ NoteTag.from_account_id 1 .local_hint = .ok tagp
        ∧ swapTestNote.inputs.values
          = d.toList ++ Word.toList ⟨2, 0, 0, 0⟩ ++ [tagp.inner]) :=
  ⟨rfl,
    create_swap_note_inputs_layout 1 ⟨1, 0, 0, 0⟩ ⟨2, 0, 0, 0⟩ .public testRng
      swapTestNote ⟨0, 0, 0, 0⟩ ⟨testStream, 2⟩ rfl⟩

/-- Claim C10: a successful `create_swap_note` call produces a note whose
asset collection holds exactly the one offered asset and whose metadata
tag is the placeholder value `0`. -/
theorem create_swap_note_assets_and_placeholder_tag (sender : AccountId)
    (offered requested : Asset) (ty : NoteType) (rng : FeltRng)
    (note : Note) (pb : Word) (rng2 : FeltRng)
    (h : create_swap_note sender offered requested ty rng
      = .ok ((note, pb), rng2)) :
    note.assets.assets = [offered] ∧ note.metadata.tag = ⟨0⟩ := by
  obtain ⟨m, hm, -, -, hn⟩ :=
    create_swap_note_shape sender offered requested ty rng note pb rng2 h
  obtain rfl := NoteMetadata.new_fields sender ty ⟨0⟩ ZERO m hm
  subst hn
  exact ⟨rfl, rfl⟩

/-- Concrete instantiation of `create_swap_note_assets_and_placeholder_tag`. -/
theorem create_swap_note_assets_and_placeholder_tag_witness :
    create_swap_note 1 ⟨1, 0, 0, 0⟩ ⟨2, 0, 0, 0⟩ .public testRng
      = .ok ((swapTestNote, ⟨0, 0, 0, 0⟩), ⟨testStream, 2⟩)
    ∧ swapTestNote.assets.assets = [⟨1, 0, 0, 0⟩]
    ∧ swapTestNote.metadata.tag = ⟨0⟩ :=
  ⟨rfl,
    (create_swap_note_assets_and_placeholder_tag 1 ⟨1, 0, 0, 0⟩ ⟨2, 0, 0, 0⟩
      .public testRng swapTestNote ⟨0, 0, 0, 0⟩ ⟨testStream, 2⟩ rfl).1,
    (create_swap_note_assets_and_placeholder_tag 1 ⟨1, 0, 0, 0⟩ ⟨2, 0, 0, 0⟩
      .public testRng swapTestNote ⟨0, 0, 0, 0⟩ ⟨testStream, 2⟩ rfl).2⟩

/-- Claim C5, counterexample: `create_swap_note` succeeds on a concrete
input while leaving the randomness source two positions ahead — not the
one position a single `draw_word` would leave — refuting the claim that
every builder draws from the randomness source exactly once. -/
theorem create_swap_note_draws_twice_counterexample :
    (match create_swap_note 1 ⟨1, 0, 0, 0⟩ ⟨2, 0, 0, 0⟩ .public testRng with
      | .ok (_, rng2) => rng2.pos
      | .error _ => 0) = 2
    ∧ testRng.draw_word.2.pos = 1 := ⟨rfl, rfl⟩

/-- Claim C5, amended: `create_p2id_note` and `create_p2idr_note` draw
from the caller-supplied randomness source exactly once, for the note's
serial number; `create_swap_note` draws exactly twice — first the
payback serial number it returns, then the note's own serial number —
and all three are otherwise pure in the randomness source. -/
theorem builders_draw_serial_numbers :
    (∀ (sender target : AccountId) (assets : List Asset) (ty : NoteType)
      (rng : FeltRng) (note : Note) (rng2 : FeltRng),
      create_p2id_note sender target assets ty rng = .ok (note, rng2) →
        rng2 = rng.draw_word.2 ∧ note.serial_num = rng.draw_word.1)
    ∧ (∀ (sender target : AccountId) (assets : List Asset) (ty : NoteType)
      (recall_height : Nat) (rng : FeltRng) (note : Note) (rng2 : FeltRng),
      create_p2idr_note sender target assets ty recall_height rng
        = .ok (note, rng2) →
        rng2 = rng.draw_word.2 ∧ note.serial_num = rng.draw_word.1)
    ∧ (∀ (sender : AccountId) (offered requested : Asset) (ty : NoteType)
      (rng : FeltRng) (note : Note) (pb : Word) (rng2 : FeltRng),
      create_swap_note sender offered requested ty rng = .ok ((note, pb), rng2) →
        rng2 = rng.draw_word.2.draw_word.2 ∧ pb = rng.draw_word.1
        ∧ note.serial_num = rng.draw_word.2.draw_word.1) := by
  refine ⟨?_, ?_, ?_⟩
  · intro sender target assets ty rng note rng2 h
    unfold create_p2id_note at h
    rw [build_note_script_ok, inputs_new_one, NoteTag.from_account_id_local] at h
    simp only [bind, Except.bind] at h
    cases hm : NoteMetadata.new sender ty ⟨3 * 2 ^ 30 + target % 2 ^ 30⟩ ZERO with
    | error e => rw [hm] at h; exact Except.noConfusion h
    | ok m =>
      rw [hm] at h
      cases hv : NoteAssets.new assets with
      | error e => rw [hv] at h; exact Except.noConfusion h
      | ok v =>
        rw [hv] at h
        simp only [Except.ok.injEq, Prod.mk.injEq] at h
        obtain ⟨hn, hr⟩ := h
        rw [← hn, ← hr]
        exact ⟨rfl, rfl⟩
  · intro sender target assets ty recall_height rng note rng2 h
    unfold create_p2idr_note at h
    rw [build_note_script_ok, inputs_new_two, NoteTag.from_account_id_local] at h
    simp only [bind, Except.bind] at h
    cases hv : NoteAssets.new assets with
    | error e => rw [hv] at h; exact Except.noConfusion h
    | ok v =>
      rw [hv] at h
      cases hm : NoteMetadata.new sender ty ⟨3 * 2 ^ 30 + target % 2 ^ 30⟩ ZERO with
      | error e => rw [hm] at h; exact Except.noConfusion h
      | ok m =>
        rw [hm] at h
        simp only [Except.ok.injEq, Prod.mk.injEq] at h
        obtain ⟨hn, hr⟩ := h
        rw [← hn, ← hr]
        exact ⟨rfl, rfl⟩
  · intro sender offered requested ty rng note pb rng2 h
    obtain ⟨m, -, hp, hr, hn⟩ :=
      create_swap_note_shape sender offered requested ty rng note pb rng2 h
    subst hn
    exact ⟨hr, hp, rfl⟩

/-- Concrete instantiation of `builders_draw_serial_numbers`. -/
theorem builders_draw_serial_numbers_witness :
    create_p2id_note 1 2 [⟨3, 0, 0, 0⟩] .public testRng
      = .ok (p2idTestNote, ⟨testStream, 1⟩)
    ∧ (⟨testStream, 1⟩ : FeltRng) = testRng.draw_word.2
      ∧ p2idTestNote.serial_num = testRng.draw_word.1
    ∧ create_swap_note 1 ⟨1, 0, 0, 0⟩ ⟨2, 0, 0, 0⟩ .public testRng
      = .ok ((swapTestNote, ⟨0, 0, 0, 0⟩), ⟨testStream, 2⟩)
    ∧ (⟨testStream, 2⟩ : FeltRng) = testRng.draw_word.2.draw_word.2
      ∧ (⟨0, 0, 0, 0⟩ : Word) = testRng.draw_word.1
      ∧ swapTestNote.serial_num = testRng.draw_word.2.draw_word.1 :=
  ⟨rfl,
    (builders_draw_serial_numbers.1 1 2 [⟨3, 0, 0, 0⟩] .public testRng
      p2idTestNote ⟨testStream, 1⟩ rfl).1,
    (builders_draw_serial_numbers.1 1 2 [⟨3, 0, 0, 0⟩] .public testRng
      p2idTestNote ⟨testStream, 1⟩ rfl).2,
    rfl,
    (builders_draw_serial_numbers.2.2 1 ⟨1, 0, 0, 0⟩ ⟨2, 0, 0, 0⟩ .public testRng
      swapTestNote ⟨0, 0, 0, 0⟩ ⟨testStream, 2⟩ rfl).1,
    (builders_draw_serial_numbers.2.2 1 ⟨1, 0, 0, 0⟩ ⟨2, 0, 0, 0⟩ .public testRng
      swapTestNote ⟨0, 0, 0, 0⟩ ⟨testStream, 2⟩ rfl).2.1,
    (builders_draw_serial_numbers.2.2 1 ⟨1, 0, 0, 0⟩ ⟨2, 0, 0, 0⟩ .public testRng
      swapTestNote ⟨0, 0, 0, 0⟩ ⟨testStream, 2⟩ rfl).2.2⟩

-- AUTHENTICATOR THEOREMS
-- =====================================================================

theorem Polynomial.mul_modulo_p_length (a b : Polynomial) :
    (Polynomial.mul_modulo_p a b).length = 512 := by
  simp [Polynomial.mul_modulo_p]

theorem get_falcon_signature_ok (k : SecretKey) (message : Word)
    (rng : RngState) :
    ∃ v, get_falcon_signature k message rng
      = (.ok v, (k.sign_with_rng message rng).2) := ⟨_, rfl⟩

/-- Claim C3: a successful `get_signature` call against a known
RpoFalcon512 key returns exactly the reverse of
`nonce ++ h.coefficients ++ s2.coefficients ++ pi` — where `h` is the
expanded public key polynomial, `s2` the signature polynomial and
`pi = mul_modulo_p(h, s2)` — with every coefficient coerced to a field
element, for a total of `8 + 512 + 512 + 512 = 1544` elements. -/
theorem get_signature_falcon_advice_layout (auth : BasicAuthenticator)
    (pub_key message : Word) (delta : AccountDelta) (rng : RngState)
    (k : SecretKey)
    (h : mapGet auth.keys pub_key = some (.RpoFalcon512 k)) :
    (auth.get_signature pub_key message delta rng).1
      = .ok (((k.sign_with_rng message rng).1.nonce.to_elements
        ++ k.compute_pub_key_poly.coefficients.map feltOfUnsigned
        ++ (k.sign_with_rng message rng).1.sig_poly.coefficients.map feltOfUnsigned
        ++ (Polynomial.mul_modulo_p k.compute_pub_key_poly
            (k.sign_with_rng message rng).1.sig_poly).map feltOfUnsigned).reverse)
    ∧ (((k.sign_with_rng message rng).1.nonce.to_elements
        ++ k.compute_pub_key_poly.coefficients.map feltOfUnsigned
        ++ (k.sign_with_rng message rng).1.sig_poly.coefficients.map feltOfUnsigned
        ++ (Polynomial.mul_modulo_p k.compute_pub_key_poly
            (k.sign_with_rng message rng).1.sig_poly).map feltOfUnsigned).reverse).length
      = 1544 := by
  constructor
  · simp only [BasicAuthenticator.get_signature, h]
    rfl
  · simp only [List.length_reverse, List.length_append, List.length_map,
      Nonce.to_elements, Polynomial.mul_modulo_p_length,
      ((k.sign_with_rng message rng).1.nonce).elements_length,
      k.compute_pub_key_poly.coefficients_length,
      ((k.sign_with_rng message rng).1.sig_poly).coefficients_length]

/-- Claim C8: `get_signature` fails with `UnknownKey` exactly when the
queried public key is absent from the key map; when the key is present
it dispatches to the scheme-specific Falcon signing routine. -/
theorem get_signature_unknown_key (auth : BasicAuthenticator)
    (pub_key message : Word) (delta : AccountDelta) (rng : RngState) :
    ((auth.get_signature pub_key message delta rng).1
        = .error (.UnknownKey pub_key) ↔ mapGet auth.keys pub_key = none)
    ∧ ∀ k, mapGet auth.keys pub_key = some (.RpoFalcon512 k) →
        auth.get_signature pub_key message delta rng
          = get_falcon_signature k message rng := by
  constructor
  · cases hg : mapGet auth.keys pub_key with
    | none => simp [BasicAuthenticator.get_signature, hg]
    | some key =>
      cases key with
      | RpoFalcon512 k =>
        rcases hs : k.sign_with_rng message rng with ⟨sig, rng2⟩
        simp [BasicAuthenticator.get_signature, hg, get_falcon_signature, hs]
  · intro k hk
    simp [BasicAuthenticator.get_signature, hk]

/-- Claim C9: the account delta never influences `get_signature` — two
calls differing only in the account delta are identical. -/
theorem get_signature_ignores_account_delta (auth : BasicAuthenticator)
    (pub_key message : Word) (d1 d2 : AccountDelta) (rng : RngState) :
    auth.get_signature pub_key message d1 rng
      = auth.get_signature pub_key message d2 rng := rfl

-- AUTHENTICATOR TEST FIXTURES AND WITNESSES
-- =====================================================================

/-- A concrete 512-coefficient polynomial. -/
def testPoly : Polynomial := ⟨List.replicate 512 1, by simp only [List.length_replicate]⟩

/-- A concrete 8-element nonce. -/
def testNonce : Nonce := ⟨List.replicate 8 0, by simp only [List.length_replicate]⟩

/-- A concrete Falcon signature. -/
def testFalconSignature : FalconSignature := ⟨testNonce, testPoly⟩

/-- A concrete secret key whose signing routine advances the random
source once. -/
def testKey : SecretKey := ⟨fun _ r => (testFalconSignature, r + 1), testPoly⟩

/-- The public-key word of the single key held by `testAuth`. -/
def testPubKey : Word := ⟨1, 1, 1, 1⟩

/-- An authenticator over the single key `testPubKey ↦ testKey`. -/
def testAuth : BasicAuthenticator :=
  BasicAuthenticator.new_with_rng [(testPubKey, .RpoFalcon512 testKey)]

/-- Concrete instantiation of `get_signature_falcon_advice_layout`. -/
theorem get_signature_falcon_advice_layout_witness :
    mapGet testAuth.keys testPubKey = some (.RpoFalcon512 testKey)
    ∧ ((testAuth.get_signature testPubKey ⟨9, 9, 9, 9⟩ ⟨[]⟩ 0).1
      = .ok (((testKey.sign_with_rng ⟨9, 9, 9, 9⟩ 0).1.nonce.to_elements
        ++ testKey.compute_pub_key_poly.coefficients.map feltOfUnsigned
        ++ (testKey.sign_with_rng ⟨9, 9, 9, 9⟩ 0).1.sig_poly.coefficients.map feltOfUnsigned
        ++ (Polynomial.mul_modulo_p testKey.compute_pub_key_poly
            (testKey.sign_with_rng ⟨9, 9, 9, 9⟩ 0).1.sig_poly).map feltOfUnsigned).reverse)
    ∧ (((testKey.sign_with_rng ⟨9, 9, 9, 9⟩ 0).1.nonce.to_elements
        ++ testKey.compute_pub_key_poly.coefficients.map feltOfUnsigned
        ++ (testKey.sign_with_rng ⟨9, 9, 9, 9⟩ 0).1.sig_poly.coefficients.map feltOfUnsigned
        ++ (Polynomial.mul_modulo_p testKey.compute_pub_key_poly
            (testKey.sign_with_rng ⟨9, 9, 9, 9⟩ 0).1.sig_poly).map feltOfUnsigned).reverse).length
      = 1544) :=
  ⟨rfl, get_signature_falcon_advice_layout testAuth testPubKey ⟨9, 9, 9, 9⟩ ⟨[]⟩ 0
    testKey rfl⟩

/-- Concrete instantiation of `get_signature_unknown_key`: the key
`⟨2,2,2,2⟩` is absent, so the call fails with `UnknownKey`; the held key
dispatches to the Falcon routine. -/
theorem get_signature_unknown_key_witness :
    ((testAuth.get_signature ⟨2, 2, 2, 2⟩ ⟨9, 9, 9, 9⟩ ⟨[]⟩ 0).1
      = .error (.UnknownKey ⟨2, 2, 2, 2⟩))
    ∧ testAuth.get_signature testPubKey ⟨9, 9, 9, 9⟩ ⟨[]⟩ 0
      = get_falcon_signature testKey ⟨9, 9, 9, 9⟩ 0 :=
  ⟨(get_signature_unknown_key testAuth ⟨2, 2, 2, 2⟩ ⟨9, 9, 9, 9⟩ ⟨[]⟩ 0).1.mpr rfl,
    (get_signature_unknown_key testAuth testPubKey ⟨9, 9, 9, 9⟩ ⟨[]⟩ 0).2
      testKey rfl⟩

end Miden
